import Mathlib

/-!
Shallow embedding of `src/pm2-prometheus-exporter.ts`.

Conventions of the embedding:
* Opaque JavaScript values (`any` payloads, metric snapshots, registries)
  are modelled as `Nat` — the code never inspects them.
* Optional TypeScript fields (`isReply?`, `replyTo?`, `pm_id?`, `name?`,
  `status?`, environment variables) are modelled as `Option`; JavaScript
  truthiness of an optional number is `some n` with `n ≠ 0`.
* A `throw` or a promise rejection is `Except.error` with the source's
  message string.
* Sending a message with `pm2.sendDataToProcessId` is recorded as a
  `(targetId, packet, outcome)` triple; the source ignores the send
  callback's error argument (`(err) => true`), so the send outcome is an
  external oracle `sendOk : Nat → Bool` that nothing in the code reads.
* The asynchronous part of `awaitAllProcMessagesReplies` (the `setTimeout`
  callback and the `'message'` handler) is a state machine `CorrState`
  driven by a list of events: inbound process messages and the firing of
  the timeout.  `settled` is the promise's outcome; a promise settles at
  most once, so `settle` is a no-op on an already settled state.
* `process.env.pm_id` is modelled as an already-parsed `Option Nat`
  (the `parseInt` call is not modelled).
-/

deriving instance DecidableEq for Except

namespace Pm2Exporter

/-- Opaque payload (`data: any` in `ProcessPacket`). -/
abbrev Data := Nat

/-- Opaque metrics registry (`client.Registry`). -/
abbrev Registry := Nat

/-- The wire envelope exchanged between processes (`interface ProcessPacket`). -/
structure ProcessPacket where
  topic : String
  id : Nat
  data : Data
  isReply : Option Bool := none
  replyTo : Option Nat := none
  originalProcId : Nat
deriving Repr, DecidableEq

/-- JavaScript truthiness of the optional `isReply` field
(`!response.isReply` is true exactly when this is `false`). -/
def isReplyTruthy (p : ProcessPacket) : Bool :=
  p.isReply == some true

/-- The slice of `pm2_env` the code reads (`pm2_env.status`). -/
structure Pm2Env where
  status : Option String := none
deriving Repr, DecidableEq

/-- The slice of `pm2.ProcessDescription` the code reads. -/
structure ProcessDescription where
  pm_id : Option Nat := none
  name : Option String := none
  pm2_env : Option Pm2Env := none
deriving Repr, DecidableEq

/-- `getCurrentProcId`: throws `'PM2 process id not found'` when
`process.env.pm_id` is undefined. -/
def getCurrentProcId (envPmId : Option Nat) : Except String Nat :=
  match envPmId with
  | none => Except.error "PM2 process id not found"
  | some n => Except.ok n

/-- The filter predicate of `getProcList`:
`o.name === process.env.name && o.pm2_env && o.pm2_env.status === 'online'`.
In JavaScript `undefined === undefined` is true, hence plain `Option`
equality on `name`. -/
def procFilter (envName : Option String) (o : ProcessDescription) : Bool :=
  o.name == envName &&
    match o.pm2_env with
    | some e => e.status == some "online"
    | none => false

/-- `getProcList`: the pm2 process list filtered to same-name online
processes (the success path of the promise; a `pm2.list` error rejects
and is not reached by any claim). -/
def getProcList (envName : Option String) (pm2List : List ProcessDescription) :
    List ProcessDescription :=
  pm2List.filter (procFilter envName)

/-- JavaScript truthiness of `proc.pm_id` as tested by `broadcastToAll`. -/
def pm_idTruthy (proc : ProcessDescription) : Bool :=
  match proc.pm_id with
  | some pid => pid != 0
  | none => false

/-- The sequence of sends issued by `broadcastToAll`'s `forEach` loop:
one `pm2.sendDataToProcessId(proc.pm_id, packet, (err) => true)` per
process whose `pm_id` is truthy.  The `Bool` component records the
outcome the ignored callback would have seen. -/
def broadcastSends (sendOk : Nat → Bool) (procList : List ProcessDescription)
    (packet : ProcessPacket) : List (Nat × ProcessPacket × Bool) :=
  procList.filterMap fun proc =>
    match proc.pm_id with
    | some pid => if pid != 0 then some (pid, packet, sendOk pid) else none
    | none => none

/-- `broadcastToAll`: awaits `getProcList`, fires the sends, and resolves
with `procList.length`. -/
def broadcastToAll (sendOk : Nat → Bool) (envName : Option String)
    (pm2List : List ProcessDescription) (packet : ProcessPacket) :
    List (Nat × ProcessPacket × Bool) × Nat :=
  let procList := getProcList envName pm2List
  (broadcastSends sendOk procList packet, procList.length)

/-- The request packet built inside `awaitAllProcMessagesReplies`
(lines 97–104 of the source). -/
def mkBroadcastPacket (currentProcId : Nat) (topic : String) : ProcessPacket :=
  { topic := topic
    id := currentProcId
    data := 0
    isReply := some false
    replyTo := some currentProcId
    originalProcId := currentProcId }

/-- The live state of one `awaitAllProcMessagesReplies` promise after
broadcast: the `responses` array, the expected count `procLength`, whether
the `'message'` handler is still registered, whether the timeout can still
fire, and the promise's outcome (`none` = pending). -/
structure CorrState where
  topic : String
  expected : Nat
  responses : List ProcessPacket
  handlerRegistered : Bool
  timeoutPending : Bool
  settled : Option (Except String (List ProcessPacket))
deriving Repr, DecidableEq

/-- State right after lines 93–109 and 123 ran for a broadcast that
targeted `expected` processes. -/
def CorrState.init (topic : String) (expected : Nat) : CorrState :=
  { topic := topic
    expected := expected
    responses := []
    handlerRegistered := true
    timeoutPending := true
    settled := none }

/-- A promise settles at most once: `resolve`/`reject` after the first
settlement are no-ops. -/
def settle (s : CorrState) (o : Except String (List ProcessPacket)) : CorrState :=
  if s.settled.isSome then s else { s with settled := some o }

/-- Events observable by the promise executor: an inbound `'message'`
event, or the firing of the `setTimeout` deadline. -/
inductive CorrEvent where
  | message (p : ProcessPacket)
  | timeoutFire
deriving Repr, DecidableEq

/-- One event against the source's callbacks.
`timeoutFire` runs `() => reject('timeout')` (line 107) — note it does
not remove the `'message'` handler.  `message p` runs `handler`
(lines 111–121): drop unless `isReply` is truthy and the topic matches;
otherwise push, and when `responses.length === procLength` remove the
listener, clear the timeout and resolve. -/
def CorrState.step (s : CorrState) : CorrEvent → CorrState
  | CorrEvent.timeoutFire =>
    if s.timeoutPending then
      settle { s with timeoutPending := false } (Except.error "timeout")
    else s
  | CorrEvent.message p =>
    if s.handlerRegistered then
      if !(isReplyTruthy p) || p.topic != s.topic then s
      else
        let responses := s.responses ++ [p]
        if responses.length == s.expected then
          settle { s with responses := responses
                          handlerRegistered := false
                          timeoutPending := false }
            (Except.ok responses)
        else { s with responses := responses }
    else s

/-- Run a sequence of events. -/
def CorrState.run (s : CorrState) (evs : List CorrEvent) : CorrState :=
  evs.foldl CorrState.step s

/-- Does an event carry a packet the handler for `topic` would count? -/
def CorrEvent.isMatch (topic : String) : CorrEvent → Bool
  | CorrEvent.message p => isReplyTruthy p && p.topic == topic
  | CorrEvent.timeoutFire => false

/-- The synchronous prefix of `awaitAllProcMessagesReplies`: resolve the
current process id, broadcast the request packet, and set up the
correlator state with `expected = procLength`. -/
def awaitAllInit (sendOk : Nat → Bool) (envPmId : Option Nat)
    (envName : Option String) (pm2List : List ProcessDescription)
    (topic : String) :
    Except String (List (Nat × ProcessPacket × Bool) × CorrState) :=
  match getCurrentProcId envPmId with
  | Except.error e => Except.error e
  | Except.ok currentProcId =>
    let r := broadcastToAll sendOk envName pm2List
      (mkBroadcastPacket currentProcId topic)
    Except.ok (r.1, CorrState.init topic r.2)

/-- `sendProcReply`: builds the return packet by spreading the original
packet and overriding `data`, `isReply`, `id`, `originalProcId`; throws
`'ReplyTo is undefined'` before sending when `replyTo` is absent;
otherwise sends exactly one packet to `originalPacket.replyTo`.
`Except.ok (target, packet)` is the single send; `Except.error` means
nothing was sent. -/
def sendProcReply (envPmId : Option Nat) (originalPacket : ProcessPacket)
    (data : Data) : Except String (Nat × ProcessPacket) :=
  match getCurrentProcId envPmId with
  | Except.error e => Except.error e
  | Except.ok currentProcId =>
    let returnPacket : ProcessPacket :=
      { originalPacket with
        data := data
        isReply := some true
        id := currentProcId
        originalProcId := currentProcId }
    match originalPacket.replyTo with
    | none => Except.error "ReplyTo is undefined"
    | some target => Except.ok (target, returnPacket)

/-- `handleProcessMessage` (lines 193–197): on a truthy packet with topic
`'metrics-get'` and falsy `isReply`, reply with the local metrics JSON.
Result: `some (target, packet)` when a reply was sent, `none` when the
packet was ignored. -/
def handleProcessMessage (envPmId : Option Nat) (localMetricsJSON : Data)
    (packet : Option ProcessPacket) :
    Except String (Option (Nat × ProcessPacket)) :=
  match packet with
  | none => Except.ok none
  | some p =>
    if p.topic == "metrics-get" && !(isReplyTruthy p) then
      match sendProcReply envPmId p localMetricsJSON with
      | Except.ok send => Except.ok (some send)
      | Except.error e => Except.error e
    else Except.ok none

/-- `getAggregateMetrics`: in cluster mode, broadcast `'metrics-get'` and
aggregate the reply payloads once the correlator settles (`none` in the
first component = the awaited promise is still pending after the observed
events); otherwise return `client.register` (here `localRegister`) with
no sends.  The numeric timeout only parameterises `setTimeout`, whose
firing is the `timeoutFire` event, so it does not appear here. -/
def getAggregateMetrics (aggregate : List Data → Registry)
    (localRegister : Registry) (isClusterMode : Bool) (sendOk : Nat → Bool)
    (envPmId : Option Nat) (envName : Option String)
    (pm2List : List ProcessDescription) (events : List CorrEvent) :
    Option (Except String Registry) × List (Nat × ProcessPacket × Bool) :=
  if isClusterMode then
    match awaitAllInit sendOk envPmId envName pm2List "metrics-get" with
    | Except.error e => (some (Except.error e), [])
    | Except.ok (sends, st) =>
      match (CorrState.run st events).settled with
      | some (Except.ok procMetrics) =>
        (some (Except.ok (aggregate (procMetrics.map fun o => o.data))), sends)
      | some (Except.error e) => (some (Except.error e), sends)
      | none => (none, sends)
  else (some (Except.ok localRegister), [])

/-!
Two `awaitAllProcMessagesReplies` calls alive in the same process share the
`process` event emitter: a `'message'` event is dispatched to every handler
still registered, while each call owns its own `setTimeout`.
-/

/-- Events for two coexisting correlator promises: an inbound `'message'`
(seen by both registered handlers) or either call's deadline firing. -/
inductive PairEvent where
  | message (p : ProcessPacket)
  | timeoutA
  | timeoutB
deriving Repr, DecidableEq

/-- Dispatch one event to two coexisting correlator states.
`CorrState.step` already ignores messages once its handler is removed. -/
def pairStep (ab : CorrState × CorrState) : PairEvent → CorrState × CorrState
  | PairEvent.message p =>
    (CorrState.step ab.1 (CorrEvent.message p),
     CorrState.step ab.2 (CorrEvent.message p))
  | PairEvent.timeoutA => (CorrState.step ab.1 CorrEvent.timeoutFire, ab.2)
  | PairEvent.timeoutB => (ab.1, CorrState.step ab.2 CorrEvent.timeoutFire)

/-- Run a sequence of events against two coexisting correlator states. -/
def pairRun (ab : CorrState × CorrState) (evs : List PairEvent) :
    CorrState × CorrState :=
  evs.foldl pairStep ab

/-- Concrete reply from sibling 2 that arrives before the first request's
deadline. -/
def firstReplyA : ProcessPacket :=
  { topic := "metrics-get", id := 2, data := 10, isReply := some true
    replyTo := some 1, originalProcId := 2 }

/-- Concrete reply from sibling 3 that arrives only after the first
request's deadline. -/
def lateReplyA : ProcessPacket :=
  { topic := "metrics-get", id := 3, data := 999, isReply := some true
    replyTo := some 1, originalProcId := 3 }

/-- Concrete reply from sibling 2 to the second request. -/
def replyB : ProcessPacket :=
  { topic := "metrics-get", id := 2, data := 20, isReply := some true
    replyTo := some 1, originalProcId := 2 }

/-- Concrete request packet originated by process 1. -/
def reqFromProc1 : ProcessPacket :=
  { topic := "metrics-get", id := 1, data := 0, isReply := some false
    replyTo := some 1, originalProcId := 1 }

/-- Request packet lacking a `replyTo` target. -/
def reqMissingReplyTo : ProcessPacket :=
  { topic := "metrics-get"
    id := 1
    data := 0
    isReply := some false
    replyTo := none
    originalProcId := 1 }

/-- A sibling descriptor whose `pm_id` is `0` — falsy in JavaScript. -/
def siblingWithPmIdZero : ProcessDescription :=
  { pm_id := some 0
    name := some "app"
    pm2_env := some { status := some "online" } }

/-- The broadcasting process's own descriptor (id 1, online, same name). -/
def selfDescriptor : ProcessDescription :=
  { pm_id := some 1
    name := some "app"
    pm2_env := some { status := some "online" } }

/-- Invariant of every reachable correlator state: a pending promise still
has its deadline armed, the only rejection value is `'timeout'`, and a
fulfilled promise carries exactly the collected responses, in full expected
number, with the handler removed. -/
def CorrInv (s : CorrState) : Prop :=
  (s.settled = none → s.timeoutPending = true)
  ∧ (∀ e, s.settled = some (Except.error e) → e = "timeout")
  ∧ (∀ l, s.settled = some (Except.ok l) →
      l = s.responses ∧ l.length = s.expected ∧ s.handlerRegistered = false)

/-!  Lemmas about the correlator state machine.  -/

lemma settle_topic (s : CorrState) (o : Except String (List ProcessPacket)) :
    (settle s o).topic = s.topic := by
  unfold settle; split <;> rfl

lemma settle_expected (s : CorrState) (o : Except String (List ProcessPacket)) :
    (settle s o).expected = s.expected := by
  unfold settle; split <;> rfl

lemma step_topic (s : CorrState) (e : CorrEvent) :
    (CorrState.step s e).topic = s.topic := by
  cases e <;> simp only [CorrState.step] <;> split_ifs <;>
    simp [settle_topic]

lemma step_expected (s : CorrState) (e : CorrEvent) :
    (CorrState.step s e).expected = s.expected := by
  cases e <;> simp only [CorrState.step] <;> split_ifs <;>
    simp [settle_expected]

lemma run_cons (s : CorrState) (e : CorrEvent) (evs : List CorrEvent) :
    CorrState.run s (e :: evs) = CorrState.run (CorrState.step s e) evs := rfl

lemma run_append (s : CorrState) (l1 l2 : List CorrEvent) :
    CorrState.run s (l1 ++ l2) = CorrState.run (CorrState.run s l1) l2 := by
  simp [CorrState.run]

lemma run_topic (evs : List CorrEvent) : ∀ s : CorrState,
    (CorrState.run s evs).topic = s.topic := by
  induction evs with
  | nil => intro s; rfl
  | cons e evs ih => intro s; rw [run_cons, ih, step_topic]

lemma run_expected (evs : List CorrEvent) : ∀ s : CorrState,
    (CorrState.run s evs).expected = s.expected := by
  induction evs with
  | nil => intro s; rfl
  | cons e evs ih => intro s; rw [run_cons, ih, step_expected]

lemma settle_settled_of_some (s : CorrState) (o o' : Except String (List ProcessPacket))
    (h : s.settled = some o) : (settle s o').settled = some o := by
  simp [settle, h]

lemma step_settled_mono (s : CorrState) (e : CorrEvent)
    (o : Except String (List ProcessPacket)) (h : s.settled = some o) :
    (CorrState.step s e).settled = some o := by
  cases e with
  | timeoutFire =>
    simp only [CorrState.step]
    split_ifs
    · exact settle_settled_of_some _ o _ h
    · exact h
  | message p =>
    simp only [CorrState.step]
    split_ifs
    · exact h
    · exact settle_settled_of_some _ o _ h
    · exact h
    · exact h

lemma run_settled_mono (evs : List CorrEvent) : ∀ (s : CorrState)
    (o : Except String (List ProcessPacket)), s.settled = some o →
    (CorrState.run s evs).settled = some o := by
  induction evs with
  | nil => intro s o h; exact h
  | cons e evs ih =>
    intro s o h
    rw [run_cons]
    exact ih _ o (step_settled_mono s e o h)

lemma init_inv (topic : String) (expected : Nat) :
    CorrInv (CorrState.init topic expected) := by
  refine ⟨fun _ => rfl, ?_, ?_⟩ <;> intro x h <;> simp [CorrState.init] at h

lemma step_inv (s : CorrState) (e : CorrEvent) (h : CorrInv s) :
    CorrInv (CorrState.step s e) := by
  obtain ⟨h1, h2, h3⟩ := h
  cases e with
  | timeoutFire =>
    simp only [CorrState.step, settle]
    split_ifs with hp hs
    · refine ⟨?_, ?_, ?_⟩
      · intro hn; simp at hn; simp_all
      · intro x hx; exact h2 x hx
      · intro l hl; exact h3 l hl
    · refine ⟨?_, ?_, ?_⟩
      · intro hn; simp at hn
      · intro x hx; simp at hx; exact hx.symm
      · intro l hl; simp at hl
    · exact ⟨h1, h2, h3⟩
  | message p =>
    simp only [CorrState.step, settle]
    split_ifs with hreg hbad hfull hs
    · exact ⟨h1, h2, h3⟩
    · refine ⟨?_, ?_, ?_⟩
      · intro hn; simp at hn; simp_all
      · intro x hx; exact h2 x hx
      · intro l hl; exact absurd ((h3 l hl).2.2) (by simp [hreg])
    · refine ⟨?_, ?_, ?_⟩
      · intro hn; simp at hn
      · intro x hx; simp at hx
      · intro l hl
        simp only [Option.some.injEq, Except.ok.injEq] at hl
        subst hl
        refine ⟨rfl, ?_, rfl⟩
        rw [beq_iff_eq] at hfull
        simpa using hfull
    · refine ⟨?_, ?_, ?_⟩
      · intro hn; exact h1 hn
      · intro x hx; exact h2 x hx
      · intro l hl; exact absurd ((h3 l hl).2.2) (by simp [hreg])
    · exact ⟨h1, h2, h3⟩

lemma run_inv (evs : List CorrEvent) : ∀ s : CorrState, CorrInv s →
    CorrInv (CorrState.run s evs) := by
  induction evs with
  | nil => intro s h; exact h
  | cons e evs ih => intro s h; rw [run_cons]; exact ih _ (step_inv s e h)

lemma settle_responses (s : CorrState) (o : Except String (List ProcessPacket)) :
    (settle s o).responses = s.responses := by
  unfold settle; split <;> rfl

lemma step_timeout_responses (s : CorrState) :
    (CorrState.step s CorrEvent.timeoutFire).responses = s.responses := by
  simp only [CorrState.step]
  split_ifs
  · exact settle_responses _ _
  · rfl

lemma step_message_not_registered (s : CorrState) (p : ProcessPacket)
    (h : s.handlerRegistered = false) :
    CorrState.step s (CorrEvent.message p) = s := by
  simp [CorrState.step, h]

lemma step_message_of_nomatch (s : CorrState) (p : ProcessPacket)
    (h : ¬(isReplyTruthy p = true ∧ p.topic = s.topic)) :
    CorrState.step s (CorrEvent.message p) = s := by
  simp only [CorrState.step]
  by_cases hreg : s.handlerRegistered
  · by_cases hA : isReplyTruthy p
    · by_cases hT : p.topic = s.topic
      · exact absurd ⟨hA, hT⟩ h
      · simp [hreg, hA, hT, bne]
    · simp [hreg, hA]
  · simp [hreg]

lemma step_message_of_match (s : CorrState) (p : ProcessPacket)
    (hreg : s.handlerRegistered = true)
    (hA : isReplyTruthy p = true) (hT : p.topic = s.topic) :
    CorrState.step s (CorrEvent.message p)
      = (if (s.responses ++ [p]).length == s.expected then
          settle { s with responses := s.responses ++ [p]
                          handlerRegistered := false
                          timeoutPending := false }
            (Except.ok (s.responses ++ [p]))
        else { s with responses := s.responses ++ [p] }) := by
  simp [CorrState.step, hreg, hA, hT, bne]

lemma step_message_responses_of_match (s : CorrState) (p : ProcessPacket)
    (hreg : s.handlerRegistered = true)
    (hA : isReplyTruthy p = true) (hT : p.topic = s.topic) :
    (CorrState.step s (CorrEvent.message p)).responses = s.responses ++ [p] := by
  rw [step_message_of_match s p hreg hA hT]
  split_ifs with h
  · exact settle_responses _ _
  · rfl

lemma step_responses_length (s : CorrState) (e : CorrEvent) :
    (CorrState.step s e).responses.length
      ≤ s.responses.length + (if CorrEvent.isMatch s.topic e then 1 else 0) := by
  cases e with
  | timeoutFire => rw [step_timeout_responses]; simp
  | message p =>
    cases hreg : s.handlerRegistered with
    | false => rw [step_message_not_registered s p hreg]; split_ifs <;> simp
    | true =>
      by_cases hm : (isReplyTruthy p = true ∧ p.topic = s.topic)
      · rw [step_message_responses_of_match s p hreg hm.1 hm.2]
        have hM : CorrEvent.isMatch s.topic (CorrEvent.message p) = true := by
          simp [CorrEvent.isMatch, hm.1, hm.2]
        simp [hM]
      · rw [step_message_of_nomatch s p hm]; split_ifs <;> simp

lemma run_responses_length (evs : List CorrEvent) : ∀ s : CorrState,
    (CorrState.run s evs).responses.length
      ≤ s.responses.length + evs.countP (CorrEvent.isMatch s.topic) := by
  induction evs with
  | nil => intro s; simp [CorrState.run]
  | cons e evs ih =>
    intro s
    rw [run_cons]
    have h1 := ih (CorrState.step s e)
    rw [step_topic] at h1
    have h2 := step_responses_length s e
    rw [List.countP_cons]
    by_cases hm : CorrEvent.isMatch s.topic e <;> simp [hm] at h2 ⊢ <;> omega

lemma step_settled_zero (s : CorrState) (e : CorrEvent) (h0 : s.expected = 0)
    (h : s.settled = none ∨ s.settled = some (Except.error "timeout")) :
    (CorrState.step s e).settled = none
      ∨ (CorrState.step s e).settled = some (Except.error "timeout") := by
  cases e with
  | timeoutFire =>
    simp only [CorrState.step, settle]
    split_ifs with hp hs
    · exact h
    · right; rfl
    · exact h
  | message p =>
    cases hreg : s.handlerRegistered with
    | false => rw [step_message_not_registered s p hreg]; exact h
    | true =>
      by_cases hm : (isReplyTruthy p = true ∧ p.topic = s.topic)
      · rw [step_message_of_match s p hreg hm.1 hm.2]
        split_ifs with hfull
        · rw [beq_iff_eq, h0] at hfull; simp at hfull
        · exact h
      · rw [step_message_of_nomatch s p hm]; exact h

lemma run_settled_zero (evs : List CorrEvent) : ∀ s : CorrState, s.expected = 0 →
    (s.settled = none ∨ s.settled = some (Except.error "timeout")) →
    ((CorrState.run s evs).settled = none
      ∨ (CorrState.run s evs).settled = some (Except.error "timeout")) := by
  induction evs with
  | nil => intro s _ h; exact h
  | cons e evs ih =>
    intro s h0 h
    rw [run_cons]
    exact ih _ (by rw [step_expected]; exact h0) (step_settled_zero s e h0 h)

lemma length_filterMap_countP {α β : Type} (f : α → Option β) :
    ∀ l : List α, (l.filterMap f).length = l.countP (fun a => (f a).isSome) := by
  intro l
  induction l with
  | nil => rfl
  | cons a l ih =>
    rw [List.filterMap_cons, List.countP_cons]
    cases hfa : f a <;> simp [hfa, ih]

lemma broadcastSends_length (sendOk : Nat → Bool) (packet : ProcessPacket)
    (procList : List ProcessDescription) :
    (broadcastSends sendOk procList packet).length = procList.countP pm_idTruthy := by
  rw [broadcastSends, length_filterMap_countP]
  congr 1
  funext proc
  cases hid : proc.pm_id with
  | none => simp [pm_idTruthy, hid]
  | some pid => by_cases hz : pid = 0 <;> simp [pm_idTruthy, hid, hz]

lemma countP_lt_length_of_mem_false (l : List ProcessDescription)
    (proc : ProcessDescription) (hmem : proc ∈ l) (hf : pm_idTruthy proc = false) :
    l.countP pm_idTruthy < l.length := by
  induction l with
  | nil => cases hmem
  | cons head rest ih =>
    rw [List.countP_cons, List.length_cons]
    rcases List.mem_cons.mp hmem with heq | hmem2
    · subst heq
      have hle := List.countP_le_length (l := rest) (p := pm_idTruthy)
      simp [hf]
      omega
    · have hlt := ih hmem2
      by_cases hh : pm_idTruthy head <;> simp [hh] <;> omega

/-- Claim C1, counterexample: with zero siblings (`expected = 0`) and no
inbound messages, the call does not resolve with an empty sequence — the
timeout elapses and the promise rejects with `'timeout'`. -/
theorem awaitReplies_zero_siblings_times_out :
    (CorrState.run (CorrState.init "metrics-get" 0) [CorrEvent.timeoutFire]).settled
        = some (Except.error "timeout")
    ∧ (CorrState.run (CorrState.init "metrics-get" 0) [CorrEvent.timeoutFire]).settled
        ≠ some (Except.ok []) := by
  constructor
  · rfl
  · decide

/-- Claim C1, amended: when the broadcast targeted zero processes, the
`responses.length === procLength` check can only run after a push (length
at least 1), so the promise never fulfills with replies; for every event
sequence it is either still pending or rejected with `'timeout'`. -/
theorem awaitReplies_zero_siblings_never_resolves (topic : String)
    (evs : List CorrEvent) :
    (CorrState.run (CorrState.init topic 0) evs).settled = none
    ∨ (CorrState.run (CorrState.init topic 0) evs).settled
        = some (Except.error "timeout") :=
  run_settled_zero evs (CorrState.init topic 0) rfl (Or.inl rfl)

/-- Claim C2: the timeout callback only rejects — the `'message'` handler
stays registered after the timeout surfaces (second conjunct); a late
reply is still pushed into the expired request's array (fourth conjunct),
and a second `awaitReplies` on the same topic counts that late reply in
its own fulfilled result (third conjunct). -/
theorem timeout_keeps_handler_and_misattributes_late_reply :
    ((CorrState.run (CorrState.init "metrics-get" 2)
        [CorrEvent.message firstReplyA, CorrEvent.timeoutFire]).settled
      = some (Except.error "timeout"))
    ∧ ((CorrState.run (CorrState.init "metrics-get" 2)
        [CorrEvent.message firstReplyA, CorrEvent.timeoutFire]).handlerRegistered
      = true)
    ∧ ((pairRun
          (CorrState.run (CorrState.init "metrics-get" 2)
            [CorrEvent.message firstReplyA, CorrEvent.timeoutFire],
           CorrState.init "metrics-get" 2)
          [PairEvent.message lateReplyA, PairEvent.message replyB]).2.settled
      = some (Except.ok [lateReplyA, replyB]))
    ∧ ((pairRun
          (CorrState.run (CorrState.init "metrics-get" 2)
            [CorrEvent.message firstReplyA, CorrEvent.timeoutFire],
           CorrState.init "metrics-get" 2)
          [PairEvent.message lateReplyA, PairEvent.message replyB]).1.responses
      = [firstReplyA, lateReplyA]) := by decide

/-- Claim C3, counterexample: a request originated by process 1 is answered
by process 2; the reply's `originalProcId` is 2, not the request's 1 — the
field is overwritten, not carried unchanged. -/
theorem sendProcReply_overwrites_originId :
    reqFromProc1.originalProcId = 1
    ∧ (sendProcReply (some 2) reqFromProc1 5).toOption.map
        (fun r => r.2.originalProcId) = some 2 := by decide

/-- Claim C3, amended: the reply packet sets `originalProcId` (and `id`) to
the replying process's own id; `topic`, `replyTo` and the other fields are
spread unchanged from the request. -/
theorem sendProcReply_sets_originId_to_replier (envPmId : Option Nat) (c : Nat)
    (originalPacket : ProcessPacket) (data : Data) (target : Nat)
    (henv : envPmId = some c) (hreply : originalPacket.replyTo = some target) :
    sendProcReply envPmId originalPacket data
      = Except.ok (target,
          { originalPacket with
            data := data
            isReply := some true
            id := c
            originalProcId := c }) := by
  subst henv
  simp [sendProcReply, getCurrentProcId, hreply]

/-- Witness for the amended C3 theorem at process ids 1 (originator) and
2 (replier). -/
theorem sendProcReply_sets_originId_to_replier_witness :
    sendProcReply (some 2) reqFromProc1 5
      = Except.ok (1,
          { reqFromProc1 with
            data := 5
            isReply := some true
            id := 2
            originalProcId := 2 }) :=
  sendProcReply_sets_originId_to_replier (some 2) 2 reqFromProc1 5 1 rfl rfl

/-- Claim C4: if fewer matching replies than `expected` arrive before the
deadline fires, the promise rejects with `'timeout'` and stays rejected —
no partial result is ever surfaced, whatever arrives afterwards. -/
theorem awaitReplies_timeout_all_or_nothing (topic : String) (expected : Nat)
    (pre post : List CorrEvent)
    (hcount : pre.countP (CorrEvent.isMatch topic) < expected) :
    (CorrState.run (CorrState.init topic expected)
        (pre ++ CorrEvent.timeoutFire :: post)).settled
      = some (Except.error "timeout") := by
  have hinv := run_inv pre _ (init_inv topic expected)
  have hexp := run_expected pre (CorrState.init topic expected)
  have hlen := run_responses_length pre (CorrState.init topic expected)
  rw [run_append, run_cons]
  generalize hgen : CorrState.run (CorrState.init topic expected) pre = s1 at *
  obtain ⟨i1, i2, i3⟩ := hinv
  simp only [CorrState.init, List.length_nil, Nat.zero_add] at hexp hlen
  cases hset : s1.settled with
  | none =>
    have hp : s1.timeoutPending = true := i1 hset
    have hstep : (CorrState.step s1 CorrEvent.timeoutFire).settled
        = some (Except.error "timeout") := by
      simp only [CorrState.step, hp, if_true]
      simp [settle, hset]
    exact run_settled_mono post _ _ hstep
  | some r =>
    cases r with
    | error e =>
      have he : e = "timeout" := i2 e hset
      subst he
      exact run_settled_mono post _ _ (step_settled_mono s1 _ _ hset)
    | ok l =>
      exfalso
      obtain ⟨hl1, hl2, _⟩ := i3 l hset
      subst hl1
      omega

/-- Witness for the C4 theorem: one expected reply, none arrives, the
deadline fires: the call rejects with `'timeout'`. -/
theorem awaitReplies_timeout_all_or_nothing_witness :
    (CorrState.run (CorrState.init "metrics-get" 1)
        ([] ++ CorrEvent.timeoutFire :: [])).settled
      = some (Except.error "timeout") :=
  awaitReplies_timeout_all_or_nothing "metrics-get" 1 [] [] (by decide)

/-- Claim C5: `broadcastToAll` resolves with the length of the filtered
sibling list; the count does not depend on the send outcomes (the error
callback is ignored); when the sibling list is empty it returns 0 with no
send issued. -/
theorem broadcastToAll_returns_sibling_count (sendOk sendOk' : Nat → Bool)
    (envName : Option String) (pm2List : List ProcessDescription)
    (packet packet' : ProcessPacket) :
    (broadcastToAll sendOk envName pm2List packet).2
        = (getProcList envName pm2List).length
    ∧ (broadcastToAll sendOk envName pm2List packet).2
        = (broadcastToAll sendOk' envName pm2List packet').2
    ∧ (getProcList envName pm2List = [] →
        (broadcastToAll sendOk envName pm2List packet).1 = []) := by
  refine ⟨rfl, rfl, ?_⟩
  intro h
  show broadcastSends sendOk (getProcList envName pm2List) packet = []
  rw [h]
  rfl

/-- Witness for the C5 theorem on an empty pm2 list. -/
theorem broadcastToAll_returns_sibling_count_witness :
    (broadcastToAll (fun _ => true) (some "app") [] reqFromProc1).2
        = (getProcList (some "app") []).length
    ∧ (broadcastToAll (fun _ => true) (some "app") [] reqFromProc1).2
        = (broadcastToAll (fun _ => false) (some "app") [] reqMissingReplyTo).2
    ∧ (getProcList (some "app") [] = [] →
        (broadcastToAll (fun _ => true) (some "app") [] reqFromProc1).1 = []) :=
  broadcastToAll_returns_sibling_count (fun _ => true) (fun _ => false)
    (some "app") [] reqFromProc1 reqMissingReplyTo

/-- Claim C6: while the handler of an outstanding request is registered,
an inbound packet is appended to the collected responses exactly when its
`isReply` is truthy and its topic equals the request's topic; any other
packet leaves the state completely unchanged. -/
theorem awaitReplies_counts_only_matching (s : CorrState) (p : ProcessPacket)
    (hreg : s.handlerRegistered = true) (_hpend : s.settled = none) :
    ((isReplyTruthy p = true ∧ p.topic = s.topic) →
      (CorrState.step s (CorrEvent.message p)).responses = s.responses ++ [p])
    ∧ (¬(isReplyTruthy p = true ∧ p.topic = s.topic) →
      CorrState.step s (CorrEvent.message p) = s) :=
  ⟨fun h => step_message_responses_of_match s p hreg h.1 h.2,
   fun h => step_message_of_nomatch s p h⟩

/-- Witness for the C6 theorem at a freshly initialised request with two
expected replies and a matching reply packet. -/
theorem awaitReplies_counts_only_matching_witness :
    ((isReplyTruthy firstReplyA = true
        ∧ firstReplyA.topic = (CorrState.init "metrics-get" 2).topic) →
      (CorrState.step (CorrState.init "metrics-get" 2)
          (CorrEvent.message firstReplyA)).responses
        = (CorrState.init "metrics-get" 2).responses ++ [firstReplyA])
    ∧ (¬(isReplyTruthy firstReplyA = true
        ∧ firstReplyA.topic = (CorrState.init "metrics-get" 2).topic) →
      CorrState.step (CorrState.init "metrics-get" 2)
          (CorrEvent.message firstReplyA)
        = CorrState.init "metrics-get" 2) :=
  awaitReplies_counts_only_matching (CorrState.init "metrics-get" 2)
    firstReplyA rfl rfl

/-- Claim C7: `sendProcReply` throws `'ReplyTo is undefined'` before any
send when the inbound request has no `replyTo` (the error value carries no
send), and otherwise issues exactly one send, to `replyTo`'s process id. -/
theorem sendProcReply_requires_replyTo (envPmId : Option Nat) (c : Nat)
    (originalPacket : ProcessPacket) (data : Data) (henv : envPmId = some c) :
    (originalPacket.replyTo = none →
      sendProcReply envPmId originalPacket data
        = Except.error "ReplyTo is undefined")
    ∧ (∀ target, originalPacket.replyTo = some target →
      sendProcReply envPmId originalPacket data
        = Except.ok (target,
            { originalPacket with
              data := data
              isReply := some true
              id := c
              originalProcId := c })) := by
  subst henv
  constructor
  · intro hnone
    simp [sendProcReply, getCurrentProcId, hnone]
  · intro target htarget
    simp [sendProcReply, getCurrentProcId, htarget]

/-- Witness for the C7 theorem on a request packet without `replyTo`. -/
theorem sendProcReply_requires_replyTo_witness :
    (reqMissingReplyTo.replyTo = none →
      sendProcReply (some 2) reqMissingReplyTo 0
        = Except.error "ReplyTo is undefined")
    ∧ (∀ target, reqMissingReplyTo.replyTo = some target →
      sendProcReply (some 2) reqMissingReplyTo 0
        = Except.ok (target,
            { reqMissingReplyTo with
              data := 0
              isReply := some true
              id := 2
              originalProcId := 2 })) :=
  sendProcReply_requires_replyTo (some 2) 2 reqMissingReplyTo 0 rfl

/-- Claim C8: outside cluster mode, `getAggregateMetrics` returns the local
registry unchanged and no message is sent on the channel. -/
theorem getAggregateMetrics_single_process (aggregate : List Data → Registry)
    (localRegister : Registry) (isClusterMode : Bool) (sendOk : Nat → Bool)
    (envPmId : Option Nat) (envName : Option String)
    (pm2List : List ProcessDescription) (events : List CorrEvent)
    (h : isClusterMode = false) :
    getAggregateMetrics aggregate localRegister isClusterMode sendOk envPmId
        envName pm2List events
      = (some (Except.ok localRegister), []) := by
  subst h
  rfl

/-- Witness for the C8 theorem at a concrete single-process configuration. -/
theorem getAggregateMetrics_single_process_witness :
    getAggregateMetrics (fun l => l.length) 42 false (fun _ => true) (some 1)
        (some "app") [selfDescriptor] [CorrEvent.timeoutFire]
      = (some (Except.ok 42), []) :=
  getAggregateMetrics_single_process (fun l => l.length) 42 false
    (fun _ => true) (some 1) (some "app") [selfDescriptor]
    [CorrEvent.timeoutFire] rfl

/-- Claim C9: every filtered sibling counts toward the resolved total, but
a sibling whose `pm_id` is undefined or `0` gets no send; with such a
sibling present the returned count strictly exceeds the number of sends,
so even one reply per attempted send can never reach the expected count. -/
theorem broadcastToAll_counts_unsendable_sibling (sendOk : Nat → Bool)
    (envName : Option String) (pm2List : List ProcessDescription)
    (packet : ProcessPacket) (proc : ProcessDescription)
    (hmem : proc ∈ getProcList envName pm2List)
    (hfal : pm_idTruthy proc = false) :
    (broadcastToAll sendOk envName pm2List packet).2
        = (getProcList envName pm2List).length
    ∧ (broadcastToAll sendOk envName pm2List packet).1.length
        < (broadcastToAll sendOk envName pm2List packet).2
    ∧ (∀ replies : List ProcessPacket,
        replies.length ≤ (broadcastToAll sendOk envName pm2List packet).1.length →
        replies.length ≠ (broadcastToAll sendOk envName pm2List packet).2) := by
  have hlt : (broadcastToAll sendOk envName pm2List packet).1.length
      < (broadcastToAll sendOk envName pm2List packet).2 := by
    show (broadcastSends sendOk (getProcList envName pm2List) packet).length
        < (getProcList envName pm2List).length
    rw [broadcastSends_length]
    exact countP_lt_length_of_mem_false _ proc hmem hfal
  exact ⟨rfl, hlt, fun replies hle => by omega⟩

/-- Witness for the C9 theorem: one online same-name sibling with
`pm_id = 0` — counted, but no send is attempted. -/
theorem broadcastToAll_counts_unsendable_sibling_witness :
    (broadcastToAll (fun _ => true) (some "app") [siblingWithPmIdZero]
        reqFromProc1).2
      = (getProcList (some "app") [siblingWithPmIdZero]).length
    ∧ (broadcastToAll (fun _ => true) (some "app") [siblingWithPmIdZero]
        reqFromProc1).1.length
      < (broadcastToAll (fun _ => true) (some "app") [siblingWithPmIdZero]
        reqFromProc1).2
    ∧ (∀ replies : List ProcessPacket,
        replies.length ≤ (broadcastToAll (fun _ => true) (some "app")
          [siblingWithPmIdZero] reqFromProc1).1.length →
        replies.length ≠ (broadcastToAll (fun _ => true) (some "app")
          [siblingWithPmIdZero] reqFromProc1).2) :=
  broadcastToAll_counts_unsendable_sibling (fun _ => true) (some "app")
    [siblingWithPmIdZero] reqFromProc1 siblingWithPmIdZero (by decide) (by decide)

/-- Claim C10: the sibling filter reads only `name` and `pm2_env.status`,
never `pm_id` (first conjunct), so the broadcaster's own descriptor passes
the filter; the request packet is sent to the broadcaster's own id, it is
counted in the expected total, and the broadcaster's responder answers its
own request with a reply to itself. -/
theorem cluster_broadcast_includes_self (sendOk : Nat → Bool)
    (envName : Option String) (pm2List : List ProcessDescription)
    (d : ProcessDescription) (cur : Nat) (localMetricsJSON : Data)
    (hid : d.pm_id = some cur) (h0 : cur ≠ 0) (hname : d.name = envName)
    (hstatus : d.pm2_env = some { status := some "online" })
    (hmem : d ∈ pm2List) :
    (∀ (o : ProcessDescription) (i j : Option Nat),
        procFilter envName { o with pm_id := i }
          = procFilter envName { o with pm_id := j })
    ∧ d ∈ getProcList envName pm2List
    ∧ (cur, mkBroadcastPacket cur "metrics-get", sendOk cur)
        ∈ (broadcastToAll sendOk envName pm2List
            (mkBroadcastPacket cur "metrics-get")).1
    ∧ 1 ≤ (broadcastToAll sendOk envName pm2List
            (mkBroadcastPacket cur "metrics-get")).2
    ∧ handleProcessMessage (some cur) localMetricsJSON
          (some (mkBroadcastPacket cur "metrics-get"))
        = Except.ok (some (cur,
            { mkBroadcastPacket cur "metrics-get" with
              data := localMetricsJSON
              isReply := some true
              id := cur
              originalProcId := cur })) := by
  have hfilter : procFilter envName d = true := by
    simp [procFilter, hname, hstatus]
  have hmem2 : d ∈ getProcList envName pm2List :=
    List.mem_filter.mpr ⟨hmem, hfilter⟩
  refine ⟨fun o i j => rfl, hmem2, ?_, ?_, ?_⟩
  · show _ ∈ broadcastSends sendOk (getProcList envName pm2List) _
    rw [broadcastSends]
    apply List.mem_filterMap.mpr
    refine ⟨d, hmem2, ?_⟩
    rw [hid]
    simp [h0]
  · show 1 ≤ (getProcList envName pm2List).length
    have hne : getProcList envName pm2List ≠ [] := List.ne_nil_of_mem hmem2
    have hpos := List.length_pos.mpr hne
    omega
  · simp [handleProcessMessage, isReplyTruthy, mkBroadcastPacket,
      sendProcReply, getCurrentProcId]

/-- Witness for the C10 theorem: pm2 list containing only the broadcaster
itself (id 1, name `app`, online). -/
theorem cluster_broadcast_includes_self_witness :
    (∀ (o : ProcessDescription) (i j : Option Nat),
        procFilter (some "app") { o with pm_id := i }
          = procFilter (some "app") { o with pm_id := j })
    ∧ selfDescriptor ∈ getProcList (some "app") [selfDescriptor]
    ∧ (1, mkBroadcastPacket 1 "metrics-get", (fun _ => true : Nat → Bool) 1)
        ∈ (broadcastToAll (fun _ => true) (some "app") [selfDescriptor]
            (mkBroadcastPacket 1 "metrics-get")).1
    ∧ 1 ≤ (broadcastToAll (fun _ => true) (some "app") [selfDescriptor]
            (mkBroadcastPacket 1 "metrics-get")).2
    ∧ handleProcessMessage (some 1) 7
          (some (mkBroadcastPacket 1 "metrics-get"))
        = Except.ok (some (1,
            { mkBroadcastPacket 1 "metrics-get" with
              data := 7
              isReply := some true
              id := 1
              originalProcId := 1 })) :=
  cluster_broadcast_includes_self (fun _ => true) (some "app") [selfDescriptor]
    selfDescriptor 1 7 rfl (by decide) rfl rfl (by decide)

end Pm2Exporter
